import Mathlib

/-!
Shallow embedding of `src/generic/include/linux/libc-compat.h` from
michaelforney/kernel-headers.

The header is pure preprocessor logic: it inspects which include-guard
macros of a competing C library are already defined and, based on that,
defines 28 boolean guard macros `__UAPI_DEF_*` (values 0 or 1).

We model the preprocessor macro environment as a function from macro names
to `Option (Option Nat)`: `none` means the macro is undefined, `some none`
means it is defined with an empty body (as `#define FOO` does), and
`some (some v)` means it is defined with the numeric body `v`.
-/

/-- A preprocessor macro environment: macro name to optional definition.
`none` = undefined; `some none` = defined with empty body;
`some (some v)` = defined with numeric body `v`. -/
abbrev Env := String → Option (Option Nat)

/-- `#ifdef n` / `defined(n)`: is the macro `n` defined in `env`? -/
def isDef (env : Env) (n : String) : Bool :=
  (env n).isSome

/-- The 28 `__UAPI_DEF_*` guard macros defined by libc-compat.h, as a record.
Field names are exactly the macro names from the source. -/
structure Guards where
  __UAPI_DEF_ETHHDR : Nat
  __UAPI_DEF_TCPHDR : Nat
  __UAPI_DEF_TIMESPEC : Nat
  __UAPI_DEF_ITIMERSPEC : Nat
  __UAPI_DEF_TIMEVAL : Nat
  __UAPI_DEF_ITIMERVAL : Nat
  __UAPI_DEF_TIMEZONE : Nat
  __UAPI_DEF_IF_IFNAMSIZ : Nat
  __UAPI_DEF_IF_NET_DEVICE_FLAGS_LOWER_UP_DORMANT_ECHO : Nat
  __UAPI_DEF_IF_NET_DEVICE_FLAGS : Nat
  __UAPI_DEF_IF_IFMAP : Nat
  __UAPI_DEF_IF_IFREQ : Nat
  __UAPI_DEF_IF_IFCONF : Nat
  __UAPI_DEF_IN_ADDR : Nat
  __UAPI_DEF_IN_IPPROTO : Nat
  __UAPI_DEF_IN_PKTINFO : Nat
  __UAPI_DEF_IP_MREQ : Nat
  __UAPI_DEF_SOCKADDR_IN : Nat
  __UAPI_DEF_IN_CLASS : Nat
  __UAPI_DEF_IN6_ADDR : Nat
  __UAPI_DEF_IN6_ADDR_ALT : Nat
  __UAPI_DEF_SOCKADDR_IN6 : Nat
  __UAPI_DEF_IPV6_MREQ : Nat
  __UAPI_DEF_IPPROTO_V6 : Nat
  __UAPI_DEF_IPV6_OPTIONS : Nat
  __UAPI_DEF_IN6_PKTINFO : Nat
  __UAPI_DEF_IP6_MTUINFO : Nat
  __UAPI_DEF_XATTR : Nat
deriving DecidableEq

/-- The userspace branch of libc-compat.h (lines 51-154, taken when
`__KERNEL__` is not defined): each block tests one competing-library
include-guard macro and sets its group of guards to 0 if it is defined,
else to 1.  The `_NETINET_IN_H` block sets both the IPv4 and the IPv6
guards. -/
def userspaceGuards (env : Env) : Guards where
  __UAPI_DEF_ETHHDR := if isDef env "_NETINET_IF_ETHER_H" then 0 else 1
  __UAPI_DEF_TCPHDR := if isDef env "_NETINET_TCP_H" then 0 else 1
  __UAPI_DEF_TIMESPEC := if isDef env "_TIME_H" then 0 else 1
  __UAPI_DEF_ITIMERSPEC := if isDef env "_TIME_H" then 0 else 1
  __UAPI_DEF_TIMEVAL := if isDef env "_SYS_TIME_H" then 0 else 1
  __UAPI_DEF_ITIMERVAL := if isDef env "_SYS_TIME_H" then 0 else 1
  __UAPI_DEF_TIMEZONE := if isDef env "_SYS_TIME_H" then 0 else 1
  __UAPI_DEF_IF_IFNAMSIZ := if isDef env "_NET_IF_H" then 0 else 1
  __UAPI_DEF_IF_NET_DEVICE_FLAGS_LOWER_UP_DORMANT_ECHO :=
    if isDef env "_NET_IF_H" then 0 else 1
  __UAPI_DEF_IF_NET_DEVICE_FLAGS := if isDef env "_NET_IF_H" then 0 else 1
  __UAPI_DEF_IF_IFMAP := if isDef env "_NET_IF_H" then 0 else 1
  __UAPI_DEF_IF_IFREQ := if isDef env "_NET_IF_H" then 0 else 1
  __UAPI_DEF_IF_IFCONF := if isDef env "_NET_IF_H" then 0 else 1
  __UAPI_DEF_IN_ADDR := if isDef env "_NETINET_IN_H" then 0 else 1
  __UAPI_DEF_IN_IPPROTO := if isDef env "_NETINET_IN_H" then 0 else 1
  __UAPI_DEF_IN_PKTINFO := if isDef env "_NETINET_IN_H" then 0 else 1
  __UAPI_DEF_IP_MREQ := if isDef env "_NETINET_IN_H" then 0 else 1
  __UAPI_DEF_SOCKADDR_IN := if isDef env "_NETINET_IN_H" then 0 else 1
  __UAPI_DEF_IN_CLASS := if isDef env "_NETINET_IN_H" then 0 else 1
  __UAPI_DEF_IN6_ADDR := if isDef env "_NETINET_IN_H" then 0 else 1
  __UAPI_DEF_IN6_ADDR_ALT := if isDef env "_NETINET_IN_H" then 0 else 1
  __UAPI_DEF_SOCKADDR_IN6 := if isDef env "_NETINET_IN_H" then 0 else 1
  __UAPI_DEF_IPV6_MREQ := if isDef env "_NETINET_IN_H" then 0 else 1
  __UAPI_DEF_IPPROTO_V6 := if isDef env "_NETINET_IN_H" then 0 else 1
  __UAPI_DEF_IPV6_OPTIONS := if isDef env "_NETINET_IN_H" then 0 else 1
  __UAPI_DEF_IN6_PKTINFO := if isDef env "_NETINET_IN_H" then 0 else 1
  __UAPI_DEF_IP6_MTUINFO := if isDef env "_NETINET_IN_H" then 0 else 1
  __UAPI_DEF_XATTR := if isDef env "_SYS_XATTR_H" then 0 else 1

/-- The fallback branch of libc-compat.h (lines 159-197, taken when
`__KERNEL__` is defined): every guard is set to 1 unconditionally. -/
def kernelGuards : Guards where
  __UAPI_DEF_ETHHDR := 1
  __UAPI_DEF_TCPHDR := 1
  __UAPI_DEF_TIMESPEC := 1
  __UAPI_DEF_ITIMERSPEC := 1
  __UAPI_DEF_TIMEVAL := 1
  __UAPI_DEF_ITIMERVAL := 1
  __UAPI_DEF_TIMEZONE := 1
  __UAPI_DEF_IF_IFNAMSIZ := 1
  __UAPI_DEF_IF_NET_DEVICE_FLAGS_LOWER_UP_DORMANT_ECHO := 1
  __UAPI_DEF_IF_NET_DEVICE_FLAGS := 1
  __UAPI_DEF_IF_IFMAP := 1
  __UAPI_DEF_IF_IFREQ := 1
  __UAPI_DEF_IF_IFCONF := 1
  __UAPI_DEF_IN_ADDR := 1
  __UAPI_DEF_IN_IPPROTO := 1
  __UAPI_DEF_IN_PKTINFO := 1
  __UAPI_DEF_IP_MREQ := 1
  __UAPI_DEF_SOCKADDR_IN := 1
  __UAPI_DEF_IN_CLASS := 1
  __UAPI_DEF_IN6_ADDR := 1
  __UAPI_DEF_IN6_ADDR_ALT := 1
  __UAPI_DEF_SOCKADDR_IN6 := 1
  __UAPI_DEF_IPV6_MREQ := 1
  __UAPI_DEF_IPPROTO_V6 := 1
  __UAPI_DEF_IPV6_OPTIONS := 1
  __UAPI_DEF_IN6_PKTINFO := 1
  __UAPI_DEF_IP6_MTUINFO := 1
  __UAPI_DEF_XATTR := 1

/-- The body of libc-compat.h: `#ifndef __KERNEL__` takes the userspace
branch, `#else` the kernel fallback branch. -/
def libcCompat (env : Env) : Guards :=
  if isDef env "__KERNEL__" = false then userspaceGuards env else kernelGuards

/-- Enumeration of the 28 guard macros, for quantifying over them. -/
inductive Guard where
  | ETHHDR
  | TCPHDR
  | TIMESPEC
  | ITIMERSPEC
  | TIMEVAL
  | ITIMERVAL
  | TIMEZONE
  | IF_IFNAMSIZ
  | IF_NET_DEVICE_FLAGS_LOWER_UP_DORMANT_ECHO
  | IF_NET_DEVICE_FLAGS
  | IF_IFMAP
  | IF_IFREQ
  | IF_IFCONF
  | IN_ADDR
  | IN_IPPROTO
  | IN_PKTINFO
  | IP_MREQ
  | SOCKADDR_IN
  | IN_CLASS
  | IN6_ADDR
  | IN6_ADDR_ALT
  | SOCKADDR_IN6
  | IPV6_MREQ
  | IPPROTO_V6
  | IPV6_OPTIONS
  | IN6_PKTINFO
  | IP6_MTUINFO
  | XATTR
deriving DecidableEq, Fintype

/-- The named definition groups of libc-compat.h (spec section 4):
Ethernet header, TCP header, timespec/itimerspec, timeval/itimerval/
timezone, interface flags, IPv4 structures, IPv6 structures, xattr. -/
inductive DefGroup where
  | ether
  | tcp
  | time
  | sysTime
  | netIf
  | inet4
  | inet6
  | xattr
deriving DecidableEq, Fintype

/-- The definition group each guard macro belongs to (the block of
libc-compat.h that defines it). -/
def groupOf : Guard → DefGroup
  | .ETHHDR => .ether
  | .TCPHDR => .tcp
  | .TIMESPEC => .time
  | .ITIMERSPEC => .time
  | .TIMEVAL => .sysTime
  | .ITIMERVAL => .sysTime
  | .TIMEZONE => .sysTime
  | .IF_IFNAMSIZ => .netIf
  | .IF_NET_DEVICE_FLAGS_LOWER_UP_DORMANT_ECHO => .netIf
  | .IF_NET_DEVICE_FLAGS => .netIf
  | .IF_IFMAP => .netIf
  | .IF_IFREQ => .netIf
  | .IF_IFCONF => .netIf
  | .IN_ADDR => .inet4
  | .IN_IPPROTO => .inet4
  | .IN_PKTINFO => .inet4
  | .IP_MREQ => .inet4
  | .SOCKADDR_IN => .inet4
  | .IN_CLASS => .inet4
  | .IN6_ADDR => .inet6
  | .IN6_ADDR_ALT => .inet6
  | .SOCKADDR_IN6 => .inet6
  | .IPV6_MREQ => .inet6
  | .IPPROTO_V6 => .inet6
  | .IPV6_OPTIONS => .inet6
  | .IN6_PKTINFO => .inet6
  | .IP6_MTUINFO => .inet6
  | .XATTR => .xattr

/-- The competing-library marker macro whose definedness the block of each
group tests (the `_NETINET_IN_H` block covers both IPv4 and IPv6). -/
def markerOf : DefGroup → String
  | .ether => "_NETINET_IF_ETHER_H"
  | .tcp => "_NETINET_TCP_H"
  | .time => "_TIME_H"
  | .sysTime => "_SYS_TIME_H"
  | .netIf => "_NET_IF_H"
  | .inet4 => "_NETINET_IN_H"
  | .inet6 => "_NETINET_IN_H"
  | .xattr => "_SYS_XATTR_H"

/-- The seven competing-library marker macros recognized by libc-compat.h. -/
def markerNames : List String :=
  ["_NETINET_IF_ETHER_H", "_NETINET_TCP_H", "_TIME_H", "_SYS_TIME_H",
   "_NET_IF_H", "_NETINET_IN_H", "_SYS_XATTR_H"]

/-- The macro name of a guard. -/
def guardName : Guard → String
  | .ETHHDR => "__UAPI_DEF_ETHHDR"
  | .TCPHDR => "__UAPI_DEF_TCPHDR"
  | .TIMESPEC => "__UAPI_DEF_TIMESPEC"
  | .ITIMERSPEC => "__UAPI_DEF_ITIMERSPEC"
  | .TIMEVAL => "__UAPI_DEF_TIMEVAL"
  | .ITIMERVAL => "__UAPI_DEF_ITIMERVAL"
  | .TIMEZONE => "__UAPI_DEF_TIMEZONE"
  | .IF_IFNAMSIZ => "__UAPI_DEF_IF_IFNAMSIZ"
  | .IF_NET_DEVICE_FLAGS_LOWER_UP_DORMANT_ECHO =>
      "__UAPI_DEF_IF_NET_DEVICE_FLAGS_LOWER_UP_DORMANT_ECHO"
  | .IF_NET_DEVICE_FLAGS => "__UAPI_DEF_IF_NET_DEVICE_FLAGS"
  | .IF_IFMAP => "__UAPI_DEF_IF_IFMAP"
  | .IF_IFREQ => "__UAPI_DEF_IF_IFREQ"
  | .IF_IFCONF => "__UAPI_DEF_IF_IFCONF"
  | .IN_ADDR => "__UAPI_DEF_IN_ADDR"
  | .IN_IPPROTO => "__UAPI_DEF_IN_IPPROTO"
  | .IN_PKTINFO => "__UAPI_DEF_IN_PKTINFO"
  | .IP_MREQ => "__UAPI_DEF_IP_MREQ"
  | .SOCKADDR_IN => "__UAPI_DEF_SOCKADDR_IN"
  | .IN_CLASS => "__UAPI_DEF_IN_CLASS"
  | .IN6_ADDR => "__UAPI_DEF_IN6_ADDR"
  | .IN6_ADDR_ALT => "__UAPI_DEF_IN6_ADDR_ALT"
  | .SOCKADDR_IN6 => "__UAPI_DEF_SOCKADDR_IN6"
  | .IPV6_MREQ => "__UAPI_DEF_IPV6_MREQ"
  | .IPPROTO_V6 => "__UAPI_DEF_IPPROTO_V6"
  | .IPV6_OPTIONS => "__UAPI_DEF_IPV6_OPTIONS"
  | .IN6_PKTINFO => "__UAPI_DEF_IN6_PKTINFO"
  | .IP6_MTUINFO => "__UAPI_DEF_IP6_MTUINFO"
  | .XATTR => "__UAPI_DEF_XATTR"

/-- Read the field of a `Guards` record selected by a `Guard`. -/
def Guards.get (G : Guards) : Guard → Nat
  | .ETHHDR => G.__UAPI_DEF_ETHHDR
  | .TCPHDR => G.__UAPI_DEF_TCPHDR
  | .TIMESPEC => G.__UAPI_DEF_TIMESPEC
  | .ITIMERSPEC => G.__UAPI_DEF_ITIMERSPEC
  | .TIMEVAL => G.__UAPI_DEF_TIMEVAL
  | .ITIMERVAL => G.__UAPI_DEF_ITIMERVAL
  | .TIMEZONE => G.__UAPI_DEF_TIMEZONE
  | .IF_IFNAMSIZ => G.__UAPI_DEF_IF_IFNAMSIZ
  | .IF_NET_DEVICE_FLAGS_LOWER_UP_DORMANT_ECHO =>
      G.__UAPI_DEF_IF_NET_DEVICE_FLAGS_LOWER_UP_DORMANT_ECHO
  | .IF_NET_DEVICE_FLAGS => G.__UAPI_DEF_IF_NET_DEVICE_FLAGS
  | .IF_IFMAP => G.__UAPI_DEF_IF_IFMAP
  | .IF_IFREQ => G.__UAPI_DEF_IF_IFREQ
  | .IF_IFCONF => G.__UAPI_DEF_IF_IFCONF
  | .IN_ADDR => G.__UAPI_DEF_IN_ADDR
  | .IN_IPPROTO => G.__UAPI_DEF_IN_IPPROTO
  | .IN_PKTINFO => G.__UAPI_DEF_IN_PKTINFO
  | .IP_MREQ => G.__UAPI_DEF_IP_MREQ
  | .SOCKADDR_IN => G.__UAPI_DEF_SOCKADDR_IN
  | .IN_CLASS => G.__UAPI_DEF_IN_CLASS
  | .IN6_ADDR => G.__UAPI_DEF_IN6_ADDR
  | .IN6_ADDR_ALT => G.__UAPI_DEF_IN6_ADDR_ALT
  | .SOCKADDR_IN6 => G.__UAPI_DEF_SOCKADDR_IN6
  | .IPV6_MREQ => G.__UAPI_DEF_IPV6_MREQ
  | .IPPROTO_V6 => G.__UAPI_DEF_IPPROTO_V6
  | .IPV6_OPTIONS => G.__UAPI_DEF_IPV6_OPTIONS
  | .IN6_PKTINFO => G.__UAPI_DEF_IN6_PKTINFO
  | .IP6_MTUINFO => G.__UAPI_DEF_IP6_MTUINFO
  | .XATTR => G.__UAPI_DEF_XATTR

/-- All 28 guards. -/
def allGuards : List Guard :=
  [.ETHHDR, .TCPHDR, .TIMESPEC, .ITIMERSPEC, .TIMEVAL, .ITIMERVAL,
   .TIMEZONE, .IF_IFNAMSIZ, .IF_NET_DEVICE_FLAGS_LOWER_UP_DORMANT_ECHO,
   .IF_NET_DEVICE_FLAGS, .IF_IFMAP, .IF_IFREQ, .IF_IFCONF, .IN_ADDR,
   .IN_IPPROTO, .IN_PKTINFO, .IP_MREQ, .SOCKADDR_IN, .IN_CLASS, .IN6_ADDR,
   .IN6_ADDR_ALT, .SOCKADDR_IN6, .IPV6_MREQ, .IPPROTO_V6, .IPV6_OPTIONS,
   .IN6_PKTINFO, .IP6_MTUINFO, .XATTR]

/-- The macro names of all 28 guards. -/
def guardNames : List String :=
  allGuards.map guardName

/-- Look up which guard a macro name denotes, if any. -/
def findGuard (name : String) : Option Guard :=
  allGuards.find? (fun g => guardName g = name)

/-- Processing the whole file `libc-compat.h` as a transformation of the
macro environment: if `_LIBC_COMPAT_H` is already defined the body is
skipped (include guard, lines 48 and 200); otherwise `_LIBC_COMPAT_H` is
defined (with empty body) and every guard macro is defined with the value
given by the body. -/
def processFile (env : Env) : Env :=
  if (env "_LIBC_COMPAT_H").isSome then env
  else
    fun name =>
      if name = "_LIBC_COMPAT_H" then some none
      else
        match findGuard name with
        | some g => some (some ((libcCompat env).get g))
        | none => env name

/-- Value of a group as a function of the two bits the file reads for it:
`__KERNEL__` definedness and the group marker definedness. -/
def groupValueOf (kernel markerDef : Bool) : Nat :=
  if kernel = false then (if markerDef then 0 else 1) else 1

/-- Master lemma: each guard's value depends only on `__KERNEL__` and the
guard's own group marker, in the shape `groupValueOf`. -/
theorem get_libcCompat_eq (env : Env) (g : Guard) :
    (libcCompat env).get g
      = groupValueOf (isDef env "__KERNEL__") (isDef env (markerOf (groupOf g))) := by
  cases g <;> by_cases hk : isDef env "__KERNEL__" = true <;>
    simp [libcCompat, userspaceGuards, kernelGuards, Guards.get, groupValueOf,
      markerOf, groupOf, hk]

/-- Empty macro environment: nothing is pre-defined. -/
def envEmpty : Env := fun _ => none

/-- Environment in which exactly the macro `m` is pre-defined (empty body). -/
def envOnly (m : String) : Env :=
  fun n => if n = m then some none else none

/-- Environment in which exactly `__KERNEL__` and `_NETINET_IN_H` are
pre-defined. -/
def envKernelIn : Env :=
  fun n =>
    if n = "__KERNEL__" then some none
    else if n = "_NETINET_IN_H" then some none
    else none

theorem markerOf_mem_markerNames (grp : DefGroup) : markerOf grp ∈ markerNames := by
  cases grp <;> simp [markerOf, markerNames]

theorem findGuard_guardName (g : Guard) : findGuard (guardName g) = some g := by
  cases g <;> rfl

theorem guardName_ne_includeGuard (g : Guard) : guardName g ≠ "_LIBC_COMPAT_H" := by
  cases g <;> simp [guardName]

theorem findGuard_eq_none (name : String) (h : name ∉ guardNames) :
    findGuard name = none := by
  cases hf : findGuard name with
  | none => rfl
  | some g =>
    exfalso
    apply h
    have hmem : g ∈ allGuards := List.mem_of_find?_eq_some hf
    have hcond := List.find?_some hf
    simp only [decide_eq_true_eq] at hcond
    exact hcond ▸ List.mem_map_of_mem guardName hmem

theorem groupValueOf_boolean (k m : Bool) : groupValueOf k m = 0 ∨ groupValueOf k m = 1 := by
  cases k <;> cases m <;> simp [groupValueOf]

/-- C1: in userspace mode (`__KERNEL__` not defined), for every guard macro,
if the competing-library marker macro of its definition group is defined
before the file is processed then the guard evaluates to 0, and if the
marker is not defined then the guard evaluates to 1.  This covers all seven
markers `_NETINET_IF_ETHER_H`, `_NETINET_TCP_H`, `_TIME_H`, `_SYS_TIME_H`,
`_NET_IF_H`, `_NETINET_IN_H`, `_SYS_XATTR_H` via `markerOf (groupOf g)`. -/
theorem marker_controls_group_guards (env : Env) (g : Guard)
    (hk : isDef env "__KERNEL__" = false) :
    (isDef env (markerOf (groupOf g)) = true → (libcCompat env).get g = 0) ∧
    (isDef env (markerOf (groupOf g)) = false → (libcCompat env).get g = 1) := by
  constructor <;> intro hm <;> rw [get_libcCompat_eq, hk, hm] <;> rfl

/-- Witness for C1: with only `_NETINET_TCP_H` pre-defined the TCP guard is
0, and with nothing pre-defined it is 1. -/
theorem marker_controls_group_guards_witness :
    (libcCompat (envOnly "_NETINET_TCP_H")).get Guard.TCPHDR = 0 ∧
    (libcCompat envEmpty).get Guard.TCPHDR = 1 :=
  ⟨(marker_controls_group_guards (envOnly "_NETINET_TCP_H") Guard.TCPHDR
      (by decide)).1 (by decide),
   (marker_controls_group_guards envEmpty Guard.TCPHDR (by decide)).2 (by decide)⟩

/-- C2: when `__KERNEL__` is defined, every guard macro is set to 1,
regardless of which competing-library marker macros are defined. -/
theorem kernel_forces_all_guards_one (env : Env) (g : Guard)
    (hk : isDef env "__KERNEL__" = true) :
    (libcCompat env).get g = 1 := by
  rw [get_libcCompat_eq, hk]
  rfl

/-- Witness for C2: with `__KERNEL__` and the marker `_NETINET_IN_H` both
pre-defined, the `IN_ADDR` guard is still 1. -/
theorem kernel_forces_all_guards_one_witness :
    isDef envKernelIn "_NETINET_IN_H" = true ∧
    (libcCompat envKernelIn).get Guard.IN_ADDR = 1 :=
  ⟨by decide, kernel_forces_all_guards_one envKernelIn Guard.IN_ADDR (by decide)⟩

/-- C3: when none of the recognized competing-library marker macros is
defined, every guard macro evaluates to 1 (whether or not `__KERNEL__` is
defined). -/
theorem no_markers_all_guards_one (env : Env) (g : Guard)
    (h : ∀ m ∈ markerNames, isDef env m = false) :
    (libcCompat env).get g = 1 := by
  have hm := h (markerOf (groupOf g)) (markerOf_mem_markerNames (groupOf g))
  rw [get_libcCompat_eq, hm]
  cases isDef env "__KERNEL__" <;> rfl

/-- Witness for C3: in the empty environment the Ethernet guard is 1. -/
theorem no_markers_all_guards_one_witness :
    (libcCompat envEmpty).get Guard.ETHHDR = 1 :=
  no_markers_all_guards_one envEmpty Guard.ETHHDR (by decide)

/-- C4: the IPv4 and IPv6 definition groups together hold fourteen guard
macros, and the single marker `_NETINET_IN_H` controls them jointly: with
`_NETINET_IN_H` defined (and `__KERNEL__` not) each of the fourteen guards,
`__UAPI_DEF_IN6_ADDR_ALT` included, is 0, and with `_NETINET_IN_H` not
defined each is 1. -/
theorem netinet_in_controls_both_ip_groups :
    (allGuards.filter
      (fun g => groupOf g = DefGroup.inet4 ∨ groupOf g = DefGroup.inet6)).length = 14 ∧
    ∀ (env : Env) (g : Guard),
      (groupOf g = DefGroup.inet4 ∨ groupOf g = DefGroup.inet6) →
      (isDef env "__KERNEL__" = false → isDef env "_NETINET_IN_H" = true →
        (libcCompat env).get g = 0) ∧
      (isDef env "_NETINET_IN_H" = false → (libcCompat env).get g = 1) := by
  refine ⟨by decide, ?_⟩
  intro env g hg
  have hmk : markerOf (groupOf g) = "_NETINET_IN_H" := by
    rcases hg with h | h <;> rw [h] <;> rfl
  constructor
  · intro hk hin
    rw [get_libcCompat_eq, hmk, hk, hin]
    rfl
  · intro hin
    rw [get_libcCompat_eq, hmk, hin]
    cases isDef env "__KERNEL__" <;> rfl

/-- Witness for C4: with only `_NETINET_IN_H` pre-defined the
`IN6_ADDR_ALT` guard is 0, and in the empty environment it is 1. -/
theorem netinet_in_controls_both_ip_groups_witness :
    (libcCompat (envOnly "_NETINET_IN_H")).get Guard.IN6_ADDR_ALT = 0 ∧
    (libcCompat envEmpty).get Guard.IN6_ADDR_ALT = 1 :=
  ⟨(netinet_in_controls_both_ip_groups.2 (envOnly "_NETINET_IN_H")
      Guard.IN6_ADDR_ALT (by decide)).1 (by decide) (by decide),
   (netinet_in_controls_both_ip_groups.2 envEmpty Guard.IN6_ADDR_ALT
      (by decide)).2 (by decide)⟩

/-- C5: in every configuration of pre-defined macros, guard macros of the
same definition group receive the same value. -/
theorem same_group_guards_equal (env : Env) (g1 g2 : Guard)
    (h : groupOf g1 = groupOf g2) :
    (libcCompat env).get g1 = (libcCompat env).get g2 := by
  rw [get_libcCompat_eq, get_libcCompat_eq, h]

/-- Witness for C5: with `_TIME_H` pre-defined, `TIMESPEC` and `ITIMERSPEC`
agree. -/
theorem same_group_guards_equal_witness :
    (libcCompat (envOnly "_TIME_H")).get Guard.TIMESPEC =
      (libcCompat (envOnly "_TIME_H")).get Guard.ITIMERSPEC :=
  same_group_guards_equal (envOnly "_TIME_H") Guard.TIMESPEC Guard.ITIMERSPEC
    (by decide)

/-- C6: after a first processing of the file (its include guard
`_LIBC_COMPAT_H` not yet defined), every guard macro is defined, and its
value is exactly 0 or exactly 1. -/
theorem guards_defined_and_boolean (env : Env)
    (h : env "_LIBC_COMPAT_H" = none) (g : Guard) :
    processFile env (guardName g) = some (some ((libcCompat env).get g)) ∧
    ((libcCompat env).get g = 0 ∨ (libcCompat env).get g = 1) := by
  constructor
  · rw [processFile]
    simp only [h, Option.isSome_none, Bool.false_eq_true, if_false]
    rw [if_neg (guardName_ne_includeGuard g), findGuard_guardName]
  · rw [get_libcCompat_eq]
    exact groupValueOf_boolean _ _

/-- Witness for C6: processing the empty environment defines the xattr
guard with value 1. -/
theorem guards_defined_and_boolean_witness :
    processFile envEmpty (guardName Guard.XATTR) =
      some (some ((libcCompat envEmpty).get Guard.XATTR)) ∧
    ((libcCompat envEmpty).get Guard.XATTR = 0 ∨
      (libcCompat envEmpty).get Guard.XATTR = 1) :=
  guards_defined_and_boolean envEmpty rfl Guard.XATTR

/-- C7, counterexample: it is not the case that each definition group has
exactly one guard name: the interface-flags group contains the two distinct
guard names `__UAPI_DEF_IF_IFREQ` and `__UAPI_DEF_IF_IFCONF` (six in all). -/
theorem one_guard_name_per_group_false :
    groupOf Guard.IF_IFREQ = DefGroup.netIf ∧
    groupOf Guard.IF_IFCONF = DefGroup.netIf ∧
    guardName Guard.IF_IFREQ ≠ guardName Guard.IF_IFCONF ∧
    ¬ ∃! g : Guard, groupOf g = DefGroup.netIf := by
  refine ⟨rfl, rfl, by decide, ?_⟩
  rintro ⟨g, hg, huniq⟩
  have h1 := huniq Guard.IF_IFREQ rfl
  have h2 := huniq Guard.IF_IFCONF rfl
  rw [← h2] at h1
  exact absurd h1 (by decide)

/-- C7 as amended: the external interface is a fixed set of 28 distinct
externally consumed guard names, each guard belonging to one definition
group and every definition group holding at least one guard name (several
groups hold more than one). -/
theorem guard_names_fixed_partition :
    guardNames.Nodup ∧ guardNames.length = 28 ∧
    (∀ g : Guard, g ∈ allGuards) ∧
    (∀ grp : DefGroup, ∃ g : Guard, groupOf g = grp) := by
  refine ⟨by decide, by decide, ?_, ?_⟩
  · intro g
    cases g <;> decide
  · intro grp
    cases grp
    · exact ⟨Guard.ETHHDR, rfl⟩
    · exact ⟨Guard.TCPHDR, rfl⟩
    · exact ⟨Guard.TIMESPEC, rfl⟩
    · exact ⟨Guard.TIMEVAL, rfl⟩
    · exact ⟨Guard.IF_IFREQ, rfl⟩
    · exact ⟨Guard.IN_ADDR, rfl⟩
    · exact ⟨Guard.IN6_ADDR, rfl⟩
    · exact ⟨Guard.XATTR, rfl⟩

/-- C8: processing the file changes no macro other than the guard macros
and the file's own include guard `_LIBC_COMPAT_H`: any other name maps to
the same definition before and after. -/
theorem processFile_frame (env : Env) (name : String)
    (h1 : name ∉ guardNames) (h2 : name ≠ "_LIBC_COMPAT_H") :
    processFile env name = env name := by
  rw [processFile]
  by_cases hl : (env "_LIBC_COMPAT_H").isSome
  · rw [if_pos hl]
  · rw [if_neg hl, if_neg h2, findGuard_eq_none name h1]

/-- Witness for C8: processing an environment with `_TIME_H` pre-defined
leaves the unrelated macro `FOO` untouched. -/
theorem processFile_frame_witness :
    processFile (envOnly "_TIME_H") "FOO" = envOnly "_TIME_H" "FOO" :=
  processFile_frame (envOnly "_TIME_H") "FOO" (by decide) (by decide)

theorem processFile_defines_includeGuard (env : Env) :
    ((processFile env) "_LIBC_COMPAT_H").isSome = true := by
  rw [processFile]
  by_cases h : (env "_LIBC_COMPAT_H").isSome
  · rw [if_pos h]
    exact h
  · rw [if_neg h]
    simp

/-- C9: processing the file is idempotent: the first processing defines
`_LIBC_COMPAT_H`, so a second processing skips the body and leaves the
macro environment unchanged. -/
theorem processFile_idem (env : Env) :
    processFile (processFile env) = processFile env := by
  conv_lhs => rw [processFile]
  rw [if_pos (processFile_defines_includeGuard env)]

/-- C10: noninterference between definition groups: a guard's value depends
only on the definedness of `__KERNEL__` and of the guard's own group marker;
two environments agreeing on those two macros give the guard the same value,
however the other marker macros differ. -/
theorem group_noninterference (env1 env2 : Env) (g : Guard)
    (hk : isDef env1 "__KERNEL__" = isDef env2 "__KERNEL__")
    (hm : isDef env1 (markerOf (groupOf g)) = isDef env2 (markerOf (groupOf g))) :
    (libcCompat env1).get g = (libcCompat env2).get g := by
  rw [get_libcCompat_eq, get_libcCompat_eq, hk, hm]

/-- Witness for C10: the environments with and without `_TIME_H` differ on
`_TIME_H` yet give the TCP guard the same value. -/
theorem group_noninterference_witness :
    isDef (envOnly "_TIME_H") "_TIME_H" ≠ isDef envEmpty "_TIME_H" ∧
    (libcCompat (envOnly "_TIME_H")).get Guard.TCPHDR =
      (libcCompat envEmpty).get Guard.TCPHDR :=
  ⟨by decide,
   group_noninterference (envOnly "_TIME_H") envEmpty Guard.TCPHDR
     (by decide) (by decide)⟩
